import Mathlib

/-!
Shallow embedding of the matchmaking / card-battle engine of
`src/socket/matchmaking.ts` (a Node.js Pokedex API), together with the deck
validator and the room registry it uses.

Modelling conventions:
* JS `Map<number, T>` and plain objects used as string-keyed records are
  embedded as association lists; lookup and in-place mutation are
  first-match operations, which coincides with JS semantics because JS maps
  and objects have unique keys.
* JS numbers holding integers are `Int` (or `Nat` where the source only ever
  stores non-negative values such as scores and lengths); `null`/`undefined`
  become `Option`.
* `Math.random()`-driven choices are threaded explicitly: the Fisher-Yates
  shuffle receives an oracle `rand : Nat → Nat`, and the index drawn at step
  `i` (`Math.floor(Math.random() * (i + 1))`, a value in `[0, i]`) is
  embedded as `rand i % (i + 1)`.
* Error messages keep the French wording of the source with accents and
  apostrophes transliterated to plain ASCII.
-/

namespace Pokedex

def DECK_SIZE : Nat := 10
def HAND_SIZE : Nat := 5
def WINNING_SCORE : Nat := 3

/-- Battle card (`GameCard` in the source): catalog data plus the mutable
`currentHp`.  The `PokemonType` enum of the generated Prisma client is
embedded as an opaque `Nat` tag. -/
structure GameCard where
  id : Int
  name : String
  hp : Int
  attack : Int
  ptype : Nat
  pokedexNumber : Int
  imgUrl : Option String
  currentHp : Int
deriving Repr, DecidableEq

/-- Source structure `PlayerGameState`. -/
structure PlayerGameState where
  socketId : String
  userId : Int
  username : String
  deck : List GameCard
  hand : List GameCard
  activeCard : Option GameCard
  score : Nat
deriving Repr, DecidableEq

/-- Source structure `GameState`; `players` is the string-keyed record
`Record<string, PlayerGameState>`. -/
structure GameState where
  roomId : Nat
  socketRoomName : String
  players : List (String × PlayerGameState)
  currentPlayerSocketId : String
  winnerSocketId : Option String
deriving Repr, DecidableEq

abbrev Players := List (String × PlayerGameState)
abbrev GamesMap := List (Nat × GameState)

/-- Record access `game.players[sid]`: first entry with the given key. -/
def pGet : Players → String → Option PlayerGameState
  | [], _ => none
  | (k, v) :: rest, sid => if k = sid then some v else pGet rest sid

/-- In-place mutation of the player object found by `game.players[sid]`:
apply `f` to the value of the first entry with the given key. -/
def pModify : Players → String → (PlayerGameState → PlayerGameState) → Players
  | [], _, _ => []
  | (k, v) :: rest, sid, f =>
    if k = sid then (k, f v) :: rest else (k, v) :: pModify rest sid f

/-- Mirrors `Object.values(game.players).find((p) => p.socketId !== sid)`. -/
def oppGet : Players → String → Option PlayerGameState
  | [], _ => none
  | (_, v) :: rest, sid => if v.socketId ≠ sid then some v else oppGet rest sid

/-- In-place mutation of the opponent object found by the value scan:
apply `f` to the value of the first entry whose `socketId` differs. -/
def oppModify : Players → String → (PlayerGameState → PlayerGameState) → Players
  | [], _, _ => []
  | (k, v) :: rest, sid, f =>
    if v.socketId ≠ sid then (k, f v) :: rest else (k, v) :: oppModify rest sid f

/-- Mirrors `gameStates.get(roomId)`. -/
def gGet : GamesMap → Nat → Option GameState
  | [], _ => none
  | (k, v) :: rest, rid => if k = rid then some v else gGet rest rid

/-- In-place mutation of the game object held in the `gameStates` map. -/
def gModify : GamesMap → Nat → (GameState → GameState) → GamesMap
  | [], _, _ => []
  | (k, v) :: rest, rid, f =>
    if k = rid then (k, f v) :: rest else (k, v) :: gModify rest rid f

/-- Mirrors `gameStates.set(roomId, game)`: replace if present, else append. -/
def gSet : GamesMap → Nat → GameState → GamesMap
  | [], rid, g => [(rid, g)]
  | (k, v) :: rest, rid, g =>
    if k = rid then (rid, g) :: rest else (k, v) :: gSet rest rid g

/-- Source function `requireGameAndPlayer`: the common guard chain shared by
every `apply*` operation. -/
def requireGameAndPlayer (m : GamesMap) (roomId : Nat) (sid : String) :
    Except String (GameState × PlayerGameState × PlayerGameState) :=
  match gGet m roomId with
  | none => .error "La partie nexiste pas"
  | some game =>
    match pGet game.players sid with
    | none => .error "Vous ne participez pas a cette partie"
    | some player =>
      match oppGet game.players sid with
      | none => .error "Adversaire introuvable pour cette partie"
      | some opp => .ok (game, player, opp)

/-- The `while` loop of `applyDrawCards`: move cards from the deck front to
the hand until the hand holds `HAND_SIZE` cards or the deck is empty. -/
def drawLoop (hand : List GameCard) : List GameCard → List GameCard × List GameCard
  | [] => (hand, [])
  | c :: rest =>
    if hand.length < HAND_SIZE then drawLoop (hand ++ [c]) rest
    else (hand, c :: rest)

/-- Source function `applyDrawCards`.  Returns the engine result together with
the `gameStates` store after the call (unchanged on failure). -/
def applyDrawCards (m : GamesMap) (roomId : Nat) (sid : String) :
    Except String Unit × GamesMap :=
  match requireGameAndPlayer m roomId sid with
  | .error e => (.error e, m)
  | .ok (game, _player, _opp) =>
    if game.winnerSocketId.isSome then
      (.error "La partie est deja terminee", m)
    else if game.currentPlayerSocketId ≠ sid then
      (.error "Ce nest pas votre tour", m)
    else
      (.ok (), gModify m roomId (fun g =>
        { g with players := pModify g.players sid (fun p =>
            let hd := drawLoop p.hand p.deck
            { p with hand := hd.1, deck := hd.2 }) }))

/-- Source function `applyPlayCard`.  `cardIndex` is the hand index supplied by
the client (an arbitrary integer). -/
def applyPlayCard (m : GamesMap) (roomId : Nat) (sid : String) (cardIndex : Int) :
    Except String Unit × GamesMap :=
  match requireGameAndPlayer m roomId sid with
  | .error e => (.error e, m)
  | .ok (game, player, _opp) =>
    if game.winnerSocketId.isSome then
      (.error "La partie est deja terminee", m)
    else if game.currentPlayerSocketId ≠ sid then
      (.error "Ce nest pas votre tour", m)
    else if cardIndex < 0 ∨ (player.hand.length : Int) ≤ cardIndex then
      (.error "Index de carte invalide", m)
    else
      (.ok (), gModify m roomId (fun g =>
        { g with players := pModify g.players sid (fun p =>
            let idx := cardIndex.toNat
            let card := p.hand.get? idx
            { p with
              hand := p.hand.eraseIdx idx ++
                (match p.activeCard with
                 | some a => [a]
                 | none => [])
              activeCard := card }) }))

/-- Source function `applyEndTurn`. -/
def applyEndTurn (m : GamesMap) (roomId : Nat) (sid : String) :
    Except String Unit × GamesMap :=
  match requireGameAndPlayer m roomId sid with
  | .error e => (.error e, m)
  | .ok (game, _player, opp) =>
    if game.winnerSocketId.isSome then
      (.error "La partie est deja terminee", m)
    else if game.currentPlayerSocketId ≠ sid then
      (.error "Ce nest pas votre tour", m)
    else
      (.ok (), gModify m roomId (fun g =>
        { g with currentPlayerSocketId := opp.socketId }))

/-- Modelled from the spec: `calculateDamage` lives in
`src/utils/rules.util.ts`, which is not part of the repository snapshot; the
spec leaves the effectiveness table and rounding rule open.  `applyAttack` is
therefore parameterised by an arbitrary total damage function of
`(attacker power, attacker element, defender element)`. -/
abbrev DamageFn := Int → Nat → Nat → Int

/-- The card mutation `opponent.activeCard.currentHp -= damage`. -/
def subHp (damage : Int) (c : GameCard) : GameCard :=
  { c with currentHp := c.currentHp - damage }

/-- The effect of the damage line on the opponent object. -/
def hitOpponent (damage : Int) (o : PlayerGameState) : PlayerGameState :=
  { o with activeCard := o.activeCard.map (subHp damage) }

/-- The mutation `player.score += 1`. -/
def bumpScore (q : PlayerGameState) : PlayerGameState :=
  { q with score := q.score + 1 }

/-- The mutation `opponent.activeCard = null`. -/
def clearActive (o : PlayerGameState) : PlayerGameState :=
  { o with activeCard := none }

/-- Source function `applyAttack`.  The in-place mutations of the player and
opponent objects are replayed in source order as first-match updates of the
`players` record. -/
def applyAttack (calculateDamage : DamageFn) (m : GamesMap) (roomId : Nat) (sid : String) :
    Except String (Option String) × GamesMap :=
  match requireGameAndPlayer m roomId sid with
  | .error e => (.error e, m)
  | .ok (game, player, opp) =>
    if game.winnerSocketId.isSome then
      (.error "La partie est deja terminee", m)
    else if game.currentPlayerSocketId ≠ sid then
      (.error "Ce nest pas votre tour", m)
    else
      match player.activeCard with
      | none => (.error "Vous navez pas de carte active", m)
      | some pc =>
        match opp.activeCard with
        | none => (.error "Ladversaire na pas de carte active", m)
        | some oc =>
          let damage := calculateDamage pc.attack pc.ptype oc.ptype
          let m1 := gModify m roomId (fun g =>
            { g with players := oppModify g.players sid (hitOpponent damage) })
          if oc.currentHp - damage ≤ 0 then
            let m2 := gModify m1 roomId (fun g =>
              { g with players := pModify g.players sid bumpScore })
            let m3 := gModify m2 roomId (fun g =>
              { g with players := oppModify g.players sid clearActive })
            if WINNING_SCORE ≤ player.score + 1 then
              (.ok (some player.socketId), gModify m3 roomId (fun g =>
                { g with winnerSocketId := some player.socketId }))
            else
              (.ok none, gModify m3 roomId (fun g =>
                { g with currentPlayerSocketId := opp.socketId }))
          else
            (.ok none, gModify m1 roomId (fun g =>
              { g with currentPlayerSocketId := opp.socketId }))

/-- Swap the entries at positions `i` and `j` of a list (identity when either
index is out of range), mirroring `[out[i], out[j]] = [out[j], out[i]]`. -/
def listSwap {α : Type} (l : List α) (i j : Nat) : List α :=
  match l.get? i, l.get? j with
  | some a, some b => (l.set i b).set j a
  | _, _ => l

/-- The `for` loop of `shuffle`: swaps for indices `i, i-1, ..., 1`; the draw
at step `i` is `rand i % (i + 1)`, the embedding of
`Math.floor(Math.random() * (i + 1))`. -/
def fyLoop {α : Type} (rand : Nat → Nat) : List α → Nat → List α
  | l, 0 => l
  | l, i + 1 => fyLoop rand (listSwap l (i + 1) (rand (i + 1) % (i + 2))) i

/-- Source function `shuffle` (Fisher-Yates over a copy), with the random draws
supplied by the oracle `rand`. -/
def shuffle {α : Type} (rand : Nat → Nat) (l : List α) : List α :=
  fyLoop rand l (l.length - 1)

/-- Catalog card payload (`dc.card` in the source): the shape the persistence
layer delivers, before the battle copy adds `currentHp`. -/
structure CatalogCard where
  id : Int
  name : String
  hp : Int
  attack : Int
  ptype : Nat
  pokedexNumber : Int
  imgUrl : Option String
deriving Repr, DecidableEq

/-- Source function `deckCardsToGameCards`: initialise `currentHp` to `hp`.
The `{ card: unknown }` wrapper indirection is collapsed into the card
payload itself. -/
def deckCardsToGameCards (deckCards : List CatalogCard) : List GameCard :=
  deckCards.map (fun card =>
    { id := card.id
      name := card.name
      hp := card.hp
      attack := card.attack
      ptype := card.ptype
      pokedexNumber := card.pokedexNumber
      imgUrl := card.imgUrl
      currentHp := card.hp })

/-- The options object of `startGame`. -/
structure StartGameOptions where
  roomId : Nat
  socketRoomName : String
  hostSocketId : String
  hostUserId : Int
  hostUsername : String
  hostDeckCards : List CatalogCard
  guestSocketId : String
  guestUserId : Int
  guestUsername : String
  guestDeckCards : List CatalogCard

/-- The object literal `{ [host.socketId]: hostPlayer, [guest.socketId]:
guestPlayer }`: with equal keys the later entry wins. -/
def twoPlayers (k1 : String) (v1 : PlayerGameState) (k2 : String)
    (v2 : PlayerGameState) : Players :=
  if k1 = k2 then [(k2, v2)] else [(k1, v1), (k2, v2)]

/-- Source function `startGame`, with the two shuffle oracles made explicit.
Returns the freshly built `GameState`. -/
def startGame (rand1 rand2 : Nat → Nat) (o : StartGameOptions) : GameState :=
  let hostAll := shuffle rand1 (deckCardsToGameCards o.hostDeckCards)
  let guestAll := shuffle rand2 (deckCardsToGameCards o.guestDeckCards)
  let hostPlayer : PlayerGameState :=
    { socketId := o.hostSocketId
      userId := o.hostUserId
      username := o.hostUsername
      deck := hostAll.drop HAND_SIZE
      hand := hostAll.take HAND_SIZE
      activeCard := none
      score := 0 }
  let guestPlayer : PlayerGameState :=
    { socketId := o.guestSocketId
      userId := o.guestUserId
      username := o.guestUsername
      deck := guestAll.drop HAND_SIZE
      hand := guestAll.take HAND_SIZE
      activeCard := none
      score := 0 }
  { roomId := o.roomId
    socketRoomName := o.socketRoomName
    players := twoPlayers o.hostSocketId hostPlayer o.guestSocketId guestPlayer
    currentPlayerSocketId := o.hostSocketId
    winnerSocketId := none }

/-- Mirrors `gameStates.set(options.roomId, game)` at the end of `startGame`. -/
def startGameStore (rand1 rand2 : Nat → Nat) (o : StartGameOptions)
    (m : GamesMap) : GamesMap :=
  gSet m o.roomId (startGame rand1 rand2 o)

/-- The `you` part of `PublicGameStateView`. -/
structure YouView where
  socketId : String
  username : String
  score : Nat
  hand : List GameCard
  activeCard : Option GameCard
  deckCount : Nat
deriving Repr, DecidableEq

/-- The `opponent` part of `PublicGameStateView`: counts only. -/
structure OpponentView where
  socketId : String
  username : String
  score : Nat
  activeCard : Option GameCard
  handCount : Nat
  deckCount : Nat
deriving Repr, DecidableEq

/-- Source structure `PublicGameStateView`. -/
structure PublicGameStateView where
  roomId : Nat
  currentPlayerSocketId : String
  you : YouView
  opponent : OpponentView
deriving Repr, DecidableEq

/-- Source function `getGameStateViewForPlayer` (the view projector). -/
def getGameStateViewForPlayer (m : GamesMap) (roomId : Nat)
    (viewerSid : String) : Option PublicGameStateView :=
  match gGet m roomId with
  | none => none
  | some game =>
    match pGet game.players viewerSid with
    | none => none
    | some viewer =>
      match oppGet game.players viewerSid with
      | none => none
      | some opponent =>
        some
          { roomId := game.roomId
            currentPlayerSocketId := game.currentPlayerSocketId
            you :=
              { socketId := viewer.socketId
                username := viewer.username
                score := viewer.score
                hand := viewer.hand
                activeCard := viewer.activeCard
                deckCount := viewer.deck.length }
            opponent :=
              { socketId := opponent.socketId
                username := opponent.username
                score := opponent.score
                activeCard := opponent.activeCard
                handCount := opponent.hand.length
                deckCount := opponent.deck.length } }

/-- Source structure `WaitingRoom` (`socketRoomName` is the room channel name). -/
structure WaitingRoom where
  id : Nat
  hostUserId : Int
  hostUsername : String
  hostSocketId : String
  deckId : Int
  socketRoomName : String
deriving Repr, DecidableEq

abbrev RoomsMap := List (Nat × WaitingRoom)

/-- Source function `getSocketRoomName`: the template literal `room-id`. -/
def getSocketRoomName (id : Nat) : String := "room-" ++ toString id

/-- Mirrors `rooms.get(roomId)`. -/
def rGet : RoomsMap → Nat → Option WaitingRoom
  | [], _ => none
  | (k, v) :: rest, rid => if k = rid then some v else rGet rest rid

/-- Mirrors `rooms.set(room.id, room)`: replace if present, else append. -/
def rSet : RoomsMap → Nat → WaitingRoom → RoomsMap
  | [], rid, r => [(rid, r)]
  | (k, v) :: rest, rid, r =>
    if k = rid then (rid, r) :: rest else (k, v) :: rSet rest rid r

/-- The data object passed to `createRoom`. -/
structure CreateRoomData where
  roomId : Nat
  hostUserId : Int
  hostUsername : String
  hostSocketId : String
  deckId : Int

/-- Source function `createRoom`: build the room, store it, return it. -/
def createRoom (rs : RoomsMap) (data : CreateRoomData) :
    WaitingRoom × RoomsMap :=
  let room : WaitingRoom :=
    { id := data.roomId
      hostUserId := data.hostUserId
      hostUsername := data.hostUsername
      hostSocketId := data.hostSocketId
      deckId := data.deckId
      socketRoomName := getSocketRoomName data.roomId }
  (room, rSet rs room.id room)

/-- Source function `getRoom`. -/
def getRoom (rs : RoomsMap) (roomId : Nat) : Option WaitingRoom :=
  rGet rs roomId

/-- A persisted deck row with its included cards, as `prisma.deck.findFirst`
returns it. -/
structure DbDeck where
  id : Int
  userId : Int
  deckCards : List CatalogCard
deriving Repr, DecidableEq

/-- Source function `validateDeck`.  The database is an explicit list of deck
rows and `findFirst` is the first row matching `{ id, userId }`.  The
`deckId` argument models the JS number after the `parseInt` branch: `none`
stands for `NaN` (an unparseable id), `some n` for the parsed integer, which
the source accepts without any sign or positivity check. -/
def validateDeck (db : List DbDeck) (userId : Int) (deckId : Option Int) :
    Except String DbDeck :=
  match deckId with
  | none => .error "Deck invalide"
  | some n =>
    match db.find? (fun d => d.id = n && d.userId = userId) with
    | none => .error "Le deck nappartient pas a lutilisateur ou nexiste pas"
    | some deck =>
      if deck.deckCards.length ≠ DECK_SIZE then
        .error "Le deck doit contenir exactement 10 cartes"
      else
        .ok deck

/-- Reachable stores: the empty store, stores extended by `startGame` on two
10-card decks, and stores stepped by any of the four `apply*` operations
(successful or not). -/
inductive Reachable : GamesMap → Prop
  | empty : Reachable []
  | start {m : GamesMap} (rand1 rand2 : Nat → Nat) (o : StartGameOptions)
      (hh : o.hostDeckCards.length = DECK_SIZE)
      (hg : o.guestDeckCards.length = DECK_SIZE) :
      Reachable m → Reachable (startGameStore rand1 rand2 o m)
  | draw {m : GamesMap} (roomId : Nat) (sid : String) :
      Reachable m → Reachable (applyDrawCards m roomId sid).2
  | play {m : GamesMap} (roomId : Nat) (sid : String) (cardIndex : Int) :
      Reachable m → Reachable (applyPlayCard m roomId sid cardIndex).2
  | attack {m : GamesMap} (calculateDamage : DamageFn) (roomId : Nat)
      (sid : String) :
      Reachable m → Reachable (applyAttack calculateDamage m roomId sid).2
  | endTurn {m : GamesMap} (roomId : Nat) (sid : String) :
      Reachable m → Reachable (applyEndTurn m roomId sid).2

/-! ### Lemmas about the association-list embedding of JS maps and records -/

theorem pGet_pModify (ps : Players) (k : String)
    (f : PlayerGameState → PlayerGameState) :
    pGet (pModify ps k f) k = (pGet ps k).map f := by
  induction ps with
  | nil => simp [pGet, pModify]
  | cons e rest ih =>
    obtain ⟨k', v⟩ := e
    by_cases h : k' = k <;> simp [pGet, pModify, h, ih]

theorem pGet_mem {ps : Players} {k : String} {v : PlayerGameState}
    (h : pGet ps k = some v) : (k, v) ∈ ps := by
  induction ps with
  | nil => simp [pGet] at h
  | cons e rest ih =>
    obtain ⟨k', v'⟩ := e
    by_cases hk : k' = k
    · subst hk
      simp [pGet] at h
      simp [h]
    · simp [pGet, hk] at h
      exact List.mem_cons_of_mem _ (ih h)

theorem oppGet_mem {ps : Players} {k : String} {v : PlayerGameState}
    (h : oppGet ps k = some v) : ∃ k', (k', v) ∈ ps := by
  induction ps with
  | nil => simp [oppGet] at h
  | cons e rest ih =>
    obtain ⟨k', v'⟩ := e
    by_cases hk : v'.socketId ≠ k
    · simp [oppGet, hk] at h
      exact ⟨k', by simp [h]⟩
    · simp [oppGet, hk] at h
      obtain ⟨k'', hk''⟩ := ih h
      exact ⟨k'', List.mem_cons_of_mem _ hk''⟩

theorem oppGet_oppModify (ps : Players) (k : String)
    {f : PlayerGameState → PlayerGameState}
    (hf : ∀ v, (f v).socketId = v.socketId) :
    oppGet (oppModify ps k f) k = (oppGet ps k).map f := by
  induction ps with
  | nil => simp [oppGet, oppModify]
  | cons e rest ih =>
    obtain ⟨k', v⟩ := e
    by_cases h : v.socketId ≠ k <;> simp [oppGet, oppModify, h, hf, ih]

theorem pGet_oppModify {ps : Players} {k : String} {p : PlayerGameState}
    {f : PlayerGameState → PlayerGameState}
    (hp : pGet ps k = some p) (hk : p.socketId = k) :
    pGet (oppModify ps k f) k = some p := by
  induction ps with
  | nil => simp [pGet] at hp
  | cons e rest ih =>
    obtain ⟨k', v⟩ := e
    by_cases hs : v.socketId ≠ k
    · by_cases hkk : k' = k
      · subst hkk
        simp [pGet] at hp
        subst hp
        exact absurd hk hs
      · simp [pGet, hkk] at hp ⊢
        simp [oppModify, hs, pGet, hkk]
        exact hp
    · simp [pGet] at hp
      by_cases hkk : k' = k
      · simp [oppModify, hs, pGet, hkk]
        simpa [hkk] using hp
      · simp [hkk] at hp
        simp [oppModify, hs, pGet, hkk]
        exact ih hp

theorem oppGet_pModify {ps : Players} {k : String} {p : PlayerGameState}
    {f : PlayerGameState → PlayerGameState}
    (hp : pGet ps k = some p) (hk : p.socketId = k)
    (hf : ∀ v, (f v).socketId = v.socketId) :
    oppGet (pModify ps k f) k = oppGet ps k := by
  induction ps with
  | nil => simp [pModify]
  | cons e rest ih =>
    obtain ⟨k', v⟩ := e
    by_cases hkk : k' = k
    · subst hkk
      simp [pGet] at hp
      subst hp
      simp [pModify, oppGet, hf, hk]
    · simp [pGet, hkk] at hp
      by_cases hs : v.socketId ≠ k
      · simp [pModify, hkk, oppGet, hs]
      · simp [pModify, hkk, oppGet, hs]
        exact ih hp

theorem pModify_of_none {ps : Players} {k : String}
    (h : pGet ps k = none) (f : PlayerGameState → PlayerGameState) :
    pModify ps k f = ps := by
  induction ps with
  | nil => simp [pModify]
  | cons e rest ih =>
    obtain ⟨k', v⟩ := e
    by_cases hkk : k' = k
    · simp [pGet, hkk] at h
    · simp [pGet, hkk] at h
      simp [pModify, hkk, ih h]

theorem oppModify_of_none {ps : Players} {k : String}
    (h : oppGet ps k = none) (f : PlayerGameState → PlayerGameState) :
    oppModify ps k f = ps := by
  induction ps with
  | nil => simp [oppModify]
  | cons e rest ih =>
    obtain ⟨k', v⟩ := e
    by_cases hs : v.socketId ≠ k
    · simp [oppGet, hs] at h
    · simp [oppGet, hs] at h
      simp [oppModify, hs, ih h]

theorem mem_pModify {ps : Players} {k : String} {p : PlayerGameState}
    {f : PlayerGameState → PlayerGameState}
    (hp : pGet ps k = some p) {e : String × PlayerGameState}
    (he : e ∈ pModify ps k f) : e ∈ ps ∨ e = (k, f p) := by
  induction ps with
  | nil => simp [pModify] at he
  | cons hd rest ih =>
    obtain ⟨k', v⟩ := hd
    by_cases hkk : k' = k
    · subst hkk
      simp [pGet] at hp
      subst hp
      simp [pModify] at he
      rcases he with he | he
      · right; simp [he]
      · left; exact List.mem_cons_of_mem _ he
    · simp [pGet, hkk] at hp
      simp [pModify, hkk] at he
      rcases he with he | he
      · left; simp [he]
      · rcases ih hp he with h | h
        · left; exact List.mem_cons_of_mem _ h
        · right; exact h

theorem mem_oppModify {ps : Players} {k : String} {o : PlayerGameState}
    {f : PlayerGameState → PlayerGameState}
    (ho : oppGet ps k = some o) {e : String × PlayerGameState}
    (he : e ∈ oppModify ps k f) : e ∈ ps ∨ e.2 = f o := by
  induction ps with
  | nil => simp [oppModify] at he
  | cons hd rest ih =>
    obtain ⟨k', v⟩ := hd
    by_cases hs : v.socketId ≠ k
    · simp [oppGet, hs] at ho
      subst ho
      simp [oppModify, hs] at he
      rcases he with he | he
      · right; simp [he]
      · left; exact List.mem_cons_of_mem _ he
    · simp [oppGet, hs] at ho
      simp [oppModify, hs] at he
      rcases he with he | he
      · left; simp [he]
      · rcases ih ho he with h | h
        · left; exact List.mem_cons_of_mem _ h
        · right; exact h

theorem gGet_gModify (m : GamesMap) (rid : Nat) (f : GameState → GameState) :
    gGet (gModify m rid f) rid = (gGet m rid).map f := by
  induction m with
  | nil => simp [gGet, gModify]
  | cons e rest ih =>
    obtain ⟨k, v⟩ := e
    by_cases h : k = rid <;> simp [gGet, gModify, h, ih]

theorem gGet_mem {m : GamesMap} {rid : Nat} {g : GameState}
    (h : gGet m rid = some g) : (rid, g) ∈ m := by
  induction m with
  | nil => simp [gGet] at h
  | cons e rest ih =>
    obtain ⟨k, v⟩ := e
    by_cases hk : k = rid
    · subst hk
      simp [gGet] at h
      simp [h]
    · simp [gGet, hk] at h
      exact List.mem_cons_of_mem _ (ih h)

theorem gModify_of_none {m : GamesMap} {rid : Nat}
    (h : gGet m rid = none) (f : GameState → GameState) :
    gModify m rid f = m := by
  induction m with
  | nil => simp [gModify]
  | cons e rest ih =>
    obtain ⟨k, v⟩ := e
    by_cases hk : k = rid
    · simp [gGet, hk] at h
    · simp [gGet, hk] at h
      simp [gModify, hk, ih h]

theorem mem_gModify {m : GamesMap} {rid : Nat} {g : GameState}
    {f : GameState → GameState}
    (hg : gGet m rid = some g) {e : Nat × GameState}
    (he : e ∈ gModify m rid f) : e ∈ m ∨ e = (rid, f g) := by
  induction m with
  | nil => simp [gModify] at he
  | cons hd rest ih =>
    obtain ⟨k, v⟩ := hd
    by_cases hk : k = rid
    · subst hk
      simp [gGet] at hg
      subst hg
      simp [gModify] at he
      rcases he with he | he
      · right; simp [he]
      · left; exact List.mem_cons_of_mem _ he
    · simp [gGet, hk] at hg
      simp [gModify, hk] at he
      rcases he with he | he
      · left; simp [he]
      · rcases ih hg he with h | h
        · left; exact List.mem_cons_of_mem _ h
        · right; exact h

theorem mem_gSet {m : GamesMap} {rid : Nat} {g : GameState}
    {e : Nat × GameState} (he : e ∈ gSet m rid g) :
    e ∈ m ∨ e = (rid, g) := by
  induction m with
  | nil => simp [gSet] at he; right; exact he
  | cons hd rest ih =>
    obtain ⟨k, v⟩ := hd
    by_cases hk : k = rid
    · simp [gSet, hk] at he
      rcases he with he | he
      · right; simp [he]
      · left; exact List.mem_cons_of_mem _ he
    · simp [gSet, hk] at he
      rcases he with he | he
      · left; simp [he]
      · rcases ih he with h | h
        · left; exact List.mem_cons_of_mem _ h
        · right; exact h

theorem rGet_rSet (rs : RoomsMap) (rid : Nat) (r : WaitingRoom) :
    rGet (rSet rs rid r) rid = some r := by
  induction rs with
  | nil => simp [rGet, rSet]
  | cons e rest ih =>
    obtain ⟨k, v⟩ := e
    by_cases h : k = rid <;> simp [rGet, rSet, h, ih]

theorem drawLoop_eq (deck hand : List GameCard) :
    drawLoop hand deck =
      (hand ++ deck.take (HAND_SIZE - hand.length),
       deck.drop (HAND_SIZE - hand.length)) := by
  induction deck generalizing hand with
  | nil => simp [drawLoop]
  | cons c rest ih =>
    by_cases h : hand.length < HAND_SIZE
    · have hk : HAND_SIZE - hand.length = (HAND_SIZE - (hand.length + 1)) + 1 := by
        omega
      rw [drawLoop]
      simp only [h, if_true, ih (hand ++ [c]), hk, List.take_succ_cons,
        List.drop_succ_cons, List.length_append, List.length_cons,
        List.length_nil, Nat.add_zero, List.append_assoc, List.singleton_append]
    · have hk : HAND_SIZE - hand.length = 0 := by omega
      simp [drawLoop, h, hk]

theorem length_listSwap {α : Type} (l : List α) (i j : Nat) :
    (listSwap l i j).length = l.length := by
  unfold listSwap
  cases h1 : l.get? i <;> cases h2 : l.get? j <;> simp

theorem length_fyLoop {α : Type} (rand : Nat → Nat) (l : List α) (n : Nat) :
    (fyLoop rand l n).length = l.length := by
  induction n generalizing l with
  | zero => rfl
  | succ k ih => simp [fyLoop, ih, length_listSwap]

theorem length_shuffle {α : Type} (rand : Nat → Nat) (l : List α) :
    (shuffle rand l).length = l.length := by
  simp [shuffle, length_fyLoop]

theorem length_deckCardsToGameCards (deckCards : List CatalogCard) :
    (deckCardsToGameCards deckCards).length = deckCards.length := by
  simp [deckCardsToGameCards]

theorem requireGameAndPlayer_ok {m : GamesMap} {rid : Nat} {sid : String}
    {g : GameState} {p o : PlayerGameState}
    (hg : gGet m rid = some g) (hp : pGet g.players sid = some p)
    (ho : oppGet g.players sid = some o) :
    requireGameAndPlayer m rid sid = .ok (g, p, o) := by
  simp [requireGameAndPlayer, hg, hp, ho]

theorem requireGameAndPlayer_ok_inv {m : GamesMap} {rid : Nat} {sid : String}
    {t : GameState × PlayerGameState × PlayerGameState}
    (h : requireGameAndPlayer m rid sid = .ok t) :
    gGet m rid = some t.1 ∧ pGet t.1.players sid = some t.2.1 ∧
      oppGet t.1.players sid = some t.2.2 := by
  unfold requireGameAndPlayer at h
  cases hg : gGet m rid with
  | none => simp [hg] at h
  | some g =>
    simp only [hg] at h
    cases hp : pGet g.players sid with
    | none => simp [hp] at h
    | some p =>
      simp only [hp] at h
      cases ho : oppGet g.players sid with
      | none => simp [ho] at h
      | some o =>
        simp only [ho, Except.ok.injEq] at h
        subst h
        exact ⟨rfl, hp, ho⟩

/-! ### Claim theorems -/

/-- C9: for every room id `n`, `createRoom` with id `n` followed directly by
`getRoom n` returns a room whose `id` equals `n` and whose room channel name
is the string `room-` followed by `n`. -/
theorem createRoom_getRoom_roundtrip (rs : RoomsMap) (data : CreateRoomData) :
    getRoom (createRoom rs data).2 data.roomId = some (createRoom rs data).1 ∧
    (createRoom rs data).1.id = data.roomId ∧
    (createRoom rs data).1.socketRoomName = "room-" ++ toString data.roomId := by
  refine ⟨?_, rfl, rfl⟩
  simp [getRoom, createRoom, rGet_rSet]

/-- C8 counterexample: at `deckId = -3` (parseable, but not a positive
integer) over an empty database, `validateDeck` does not return the
InvalidId error `"Deck invalide"`, contradicting the claim that InvalidId is
returned exactly when the id is not parseable as a positive integer. -/
theorem validateDeck_positive_cex :
    ¬ (validateDeck [] 0 (some (-3)) = Except.error "Deck invalide" ↔
        ¬ (0 : Int) < -3) := by
  intro h
  have h2 := h.mpr (by decide)
  simp [validateDeck] at h2

/-- C8 (amended): `validateDeck` returns the InvalidId error exactly when
`deckId` is not parseable as an integer at all (`parseInt` yields `NaN`;
sign and positivity are not checked); the NotOwnedOrMissing error when the
id parses but no deck matches `{id, userId}`; the WrongCardCount error when
the matched deck's card count is not 10; and otherwise Ok carrying a deck
with exactly 10 cards. -/
theorem validateDeck_spec (db : List DbDeck) (userId : Int)
    (deckId : Option Int) :
    (validateDeck db userId deckId = .error "Deck invalide" ↔ deckId = none) ∧
    (∀ n, deckId = some n →
      db.find? (fun d => d.id = n && d.userId = userId) = none →
      validateDeck db userId deckId =
        .error "Le deck nappartient pas a lutilisateur ou nexiste pas") ∧
    (∀ n deck, deckId = some n →
      db.find? (fun d => d.id = n && d.userId = userId) = some deck →
      deck.deckCards.length ≠ DECK_SIZE →
      validateDeck db userId deckId =
        .error "Le deck doit contenir exactement 10 cartes") ∧
    (∀ n deck, deckId = some n →
      db.find? (fun d => d.id = n && d.userId = userId) = some deck →
      deck.deckCards.length = DECK_SIZE →
      validateDeck db userId deckId = .ok deck ∧
        deck.deckCards.length = 10) := by
  refine ⟨?_, ?_, ?_, ?_⟩
  · cases deckId with
    | none => simp [validateDeck]
    | some n =>
      simp only [validateDeck]
      cases hf : db.find? (fun d => d.id = n && d.userId = userId) with
      | none => simp
      | some deck =>
        by_cases hl : deck.deckCards.length = DECK_SIZE <;> simp [hl]
  · intro n hn hf
    subst hn
    simp [validateDeck, hf]
  · intro n deck hn hf hl
    subst hn
    simp [validateDeck, hf, hl]
  · intro n deck hn hf hl
    subst hn
    refine ⟨by simp [validateDeck, hf, hl], ?_⟩
    simpa [DECK_SIZE] using hl

/-- A sample catalog card used by concrete witnesses. -/
def sampleCatalogCard : CatalogCard :=
  { id := 1, name := "Bulbizarre", hp := 45, attack := 49, ptype := 0,
    pokedexNumber := 1, imgUrl := none }

/-- A sample persisted deck with exactly 10 cards. -/
def sampleDbDeck : DbDeck :=
  { id := 7, userId := 1, deckCards := List.replicate 10 sampleCatalogCard }

theorem validateDeck_spec_witness :
    (some (7 : Int) = some (7 : Int)) ∧
    validateDeck [sampleDbDeck] 1 (some 7) = .ok sampleDbDeck :=
  ⟨rfl, ((validateDeck_spec [sampleDbDeck] 1 (some 7)).2.2.2 7 sampleDbDeck
    rfl (by decide) (by decide)).1⟩

/-- A game whose `players` record holds a single entry: the viewer is found
but no opponent exists. -/
def loneGame : GameState :=
  { roomId := 1
    socketRoomName := "room-1"
    players := [("a",
      { socketId := "a", userId := 1, username := "alice", deck := [],
        hand := [], activeCard := none, score := 0 })]
    currentPlayerSocketId := "a"
    winnerSocketId := none }

def loneStore : GamesMap := [(1, loneGame)]

/-- C7 counterexample: in `loneStore` the game for room 1 exists and viewer
`"a"` is found in it, yet the projector returns absent (the opponent is
missing) — so absence is not equivalent to "game or viewer not found". -/
theorem getGameStateViewForPlayer_absent_cex :
    getGameStateViewForPlayer loneStore 1 "a" = none ∧
    gGet loneStore 1 = some loneGame ∧
    (pGet loneGame.players "a").isSome = true := by
  refine ⟨?_, rfl, rfl⟩
  simp [getGameStateViewForPlayer, loneStore, loneGame, gGet, pGet, oppGet]

/-- C7 (amended): the projector returns absent exactly when the game, the
viewer, or the opponent is not found; otherwise it returns the viewer's full
hand, own `activeCard`, own score and own deck count, and for the opponent
only `activeCard`, score, hand count and deck count, together with
`currentPlayerSocketId` and `roomId`. -/
theorem getGameStateViewForPlayer_spec (m : GamesMap) (rid : Nat)
    (sid : String) :
    (getGameStateViewForPlayer m rid sid = none ↔
      ¬ ∃ g p o, gGet m rid = some g ∧ pGet g.players sid = some p ∧
        oppGet g.players sid = some o) ∧
    (∀ g p o, gGet m rid = some g → pGet g.players sid = some p →
      oppGet g.players sid = some o →
      getGameStateViewForPlayer m rid sid = some
        { roomId := g.roomId
          currentPlayerSocketId := g.currentPlayerSocketId
          you :=
            { socketId := p.socketId, username := p.username,
              score := p.score, hand := p.hand,
              activeCard := p.activeCard, deckCount := p.deck.length }
          opponent :=
            { socketId := o.socketId, username := o.username,
              score := o.score, activeCard := o.activeCard,
              handCount := o.hand.length, deckCount := o.deck.length } }) := by
  constructor
  · unfold getGameStateViewForPlayer
    cases hg : gGet m rid with
    | none => simp [hg]
    | some g =>
      cases hp : pGet g.players sid with
      | none => simp [hg, hp]
      | some p =>
        cases ho : oppGet g.players sid with
        | none => simp [hg, hp, ho]
        | some o => simp [hg, hp, ho]
  · intro g p o hg hp ho
    simp [getGameStateViewForPlayer, hg, hp, ho]

/-- A well-formed two-player game used by concrete witnesses. -/
def pairGame : GameState :=
  { roomId := 2
    socketRoomName := "room-2"
    players :=
      [("a",
        { socketId := "a", userId := 1, username := "alice", deck := [],
          hand := [], activeCard := none, score := 0 }),
       ("b",
        { socketId := "b", userId := 2, username := "bob", deck := [],
          hand := [], activeCard := none, score := 0 })]
    currentPlayerSocketId := "a"
    winnerSocketId := none }

def pairStore : GamesMap := [(2, pairGame)]

theorem getGameStateViewForPlayer_spec_witness :
    getGameStateViewForPlayer pairStore 2 "a" = some
      { roomId := 2
        currentPlayerSocketId := "a"
        you :=
          { socketId := "a", username := "alice", score := 0, hand := [],
            activeCard := none, deckCount := 0 }
        opponent :=
          { socketId := "b", username := "bob", score := 0,
            activeCard := none, handCount := 0, deckCount := 0 } } :=
  (getGameStateViewForPlayer_spec pairStore 2 "a").2
    pairGame
    { socketId := "a", userId := 1, username := "alice", deck := [],
      hand := [], activeCard := none, score := 0 }
    { socketId := "b", userId := 2, username := "bob", deck := [],
      hand := [], activeCard := none, score := 0 }
    (by decide) (by decide) (by decide)

/-- C4: whenever the guards of `applyDrawCards` pass, cards are moved one at
a time from the front of the caller's deck into their hand until the hand
holds 5 cards or the deck runs out, and the call succeeds (also when the
deck empties with the hand still below 5). -/
theorem applyDrawCards_spec {m : GamesMap} {rid : Nat} {sid : String}
    {g : GameState} {p o : PlayerGameState}
    (hg : gGet m rid = some g) (hp : pGet g.players sid = some p)
    (ho : oppGet g.players sid = some o)
    (hw : g.winnerSocketId = none) (ht : g.currentPlayerSocketId = sid) :
    (applyDrawCards m rid sid).1 = .ok () ∧
    ∃ g', gGet (applyDrawCards m rid sid).2 rid = some g' ∧
      ∃ p', pGet g'.players sid = some p' ∧
        p'.hand = p.hand ++ p.deck.take (HAND_SIZE - p.hand.length) ∧
        p'.deck = p.deck.drop (HAND_SIZE - p.hand.length) ∧
        p'.activeCard = p.activeCard ∧ p'.score = p.score := by
  have hreq := requireGameAndPlayer_ok hg hp ho
  have hres : applyDrawCards m rid sid =
      (.ok (), gModify m rid (fun g0 =>
        { g0 with players := pModify g0.players sid (fun q =>
            let hd := drawLoop q.hand q.deck
            { q with hand := hd.1, deck := hd.2 }) })) := by
    simp [applyDrawCards, hreq, hw, ht]
  rw [hres]
  refine ⟨rfl, ?_⟩
  rw [gGet_gModify, hg, Option.map_some']
  refine ⟨_, rfl, ?_⟩
  rw [pGet_pModify, hp, Option.map_some']
  exact ⟨_, rfl, by simp [drawLoop_eq], by simp [drawLoop_eq], rfl, rfl⟩

/-- A 10 HP electric-flavoured battle card used by concrete witnesses. -/
def wCard : GameCard :=
  { id := 25, name := "Pikachu", hp := 10, attack := 4, ptype := 3,
    pokedexNumber := 25, imgUrl := none, currentHp := 10 }

/-- The draw scenario of the spec: the caller holds 2 cards and a deck of 4. -/
def drawGame : GameState :=
  { roomId := 3
    socketRoomName := "room-3"
    players :=
      [("a",
        { socketId := "a", userId := 1, username := "alice",
          deck := List.replicate 4 wCard, hand := List.replicate 2 wCard,
          activeCard := none, score := 0 }),
       ("b",
        { socketId := "b", userId := 2, username := "bob", deck := [],
          hand := [], activeCard := none, score := 0 })]
    currentPlayerSocketId := "a"
    winnerSocketId := none }

def drawStore : GamesMap := [(3, drawGame)]

theorem applyDrawCards_spec_witness :
    (applyDrawCards drawStore 3 "a").1 = .ok () ∧
    ∃ g', gGet (applyDrawCards drawStore 3 "a").2 3 = some g' ∧
      ∃ p', pGet g'.players "a" = some p' ∧
        p'.hand.length = 5 ∧ p'.deck.length = 1 := by
  obtain ⟨h1, g', hg', p', hp', hh, hd, -, -⟩ :=
    @applyDrawCards_spec drawStore 3 "a" drawGame
      { socketId := "a", userId := 1, username := "alice",
        deck := List.replicate 4 wCard, hand := List.replicate 2 wCard,
        activeCard := none, score := 0 }
      { socketId := "b", userId := 2, username := "bob", deck := [],
        hand := [], activeCard := none, score := 0 }
      (by decide) (by decide) (by decide) rfl rfl
  refine ⟨h1, g', hg', p', hp', ?_, ?_⟩
  · rw [hh]; decide
  · rw [hd]; decide

/-- C5: under the common guards of `applyPlayCard`, an out-of-range
`cardIndex` fails with the invalid-input error and leaves the store
untouched; a valid index removes the card at that index from the hand, puts
any previously active card back into the hand, and makes the removed card
the (single) new active card. -/
theorem applyPlayCard_spec {m : GamesMap} {rid : Nat} {sid : String}
    {g : GameState} {p o : PlayerGameState}
    (hg : gGet m rid = some g) (hp : pGet g.players sid = some p)
    (ho : oppGet g.players sid = some o)
    (hw : g.winnerSocketId = none) (ht : g.currentPlayerSocketId = sid)
    (cardIndex : Int) :
    (cardIndex < 0 ∨ (p.hand.length : Int) ≤ cardIndex →
      applyPlayCard m rid sid cardIndex = (.error "Index de carte invalide", m)) ∧
    (0 ≤ cardIndex → cardIndex < (p.hand.length : Int) →
      (applyPlayCard m rid sid cardIndex).1 = .ok () ∧
      ∃ g', gGet (applyPlayCard m rid sid cardIndex).2 rid = some g' ∧
        ∃ p', pGet g'.players sid = some p' ∧
          p'.activeCard = p.hand.get? cardIndex.toNat ∧
          (p'.activeCard).isSome = true ∧
          p'.hand = p.hand.eraseIdx cardIndex.toNat ++
            (match p.activeCard with
             | some a => [a]
             | none => []) ∧
          p'.deck = p.deck ∧ p'.score = p.score) := by
  have hreq := requireGameAndPlayer_ok hg hp ho
  constructor
  · intro hidx
    simp [applyPlayCard, hreq, hw, ht, hidx]
  · intro h0 hlt
    have hidx : ¬ (cardIndex < 0 ∨ (p.hand.length : Int) ≤ cardIndex) := by
      omega
    have hres : applyPlayCard m rid sid cardIndex =
        (.ok (), gModify m rid (fun g0 =>
          { g0 with players := pModify g0.players sid (fun q =>
              let idx := cardIndex.toNat
              let card := q.hand.get? idx
              { q with
                hand := q.hand.eraseIdx idx ++
                  (match q.activeCard with
                   | some a => [a]
                   | none => [])
                activeCard := card }) })) := by
      simp [applyPlayCard, hreq, hw, ht, hidx]
    rw [hres]
    refine ⟨rfl, ?_⟩
    rw [gGet_gModify, hg, Option.map_some']
    refine ⟨_, rfl, ?_⟩
    rw [pGet_pModify, hp, Option.map_some']
    refine ⟨_, rfl, rfl, ?_, rfl, rfl, rfl⟩
    have hlt' : cardIndex.toNat < p.hand.length := by omega
    simp [List.getElem?_eq_getElem hlt']

def wCard2 : GameCard :=
  { id := 4, name := "Salameche", hp := 12, attack := 5, ptype := 1,
    pokedexNumber := 4, imgUrl := none, currentHp := 12 }

def wCardA : GameCard :=
  { id := 7, name := "Carapuce", hp := 11, attack := 4, ptype := 2,
    pokedexNumber := 7, imgUrl := none, currentHp := 11 }

/-- Play scenario: caller holds two cards in hand and an active card. -/
def playGame : GameState :=
  { roomId := 4
    socketRoomName := "room-4"
    players :=
      [("a",
        { socketId := "a", userId := 1, username := "alice", deck := [],
          hand := [wCard, wCard2], activeCard := some wCardA, score := 0 }),
       ("b",
        { socketId := "b", userId := 2, username := "bob", deck := [],
          hand := [], activeCard := none, score := 0 })]
    currentPlayerSocketId := "a"
    winnerSocketId := none }

def playStore : GamesMap := [(4, playGame)]

theorem applyPlayCard_spec_witness :
    (applyPlayCard playStore 4 "a" 0).1 = .ok () ∧
    ∃ g', gGet (applyPlayCard playStore 4 "a" 0).2 4 = some g' ∧
      ∃ p', pGet g'.players "a" = some p' ∧
        p'.activeCard = some wCard ∧ p'.hand = [wCard2, wCardA] := by
  obtain ⟨-, h2⟩ :=
    @applyPlayCard_spec playStore 4 "a" playGame
      { socketId := "a", userId := 1, username := "alice", deck := [],
        hand := [wCard, wCard2], activeCard := some wCardA, score := 0 }
      { socketId := "b", userId := 2, username := "bob", deck := [],
        hand := [], activeCard := none, score := 0 }
      (by decide) (by decide) (by decide) rfl rfl 0
  obtain ⟨h1, g', hg', p', hp', hac, -, hh, -, -⟩ := h2 (by decide) (by decide)
  refine ⟨h1, g', hg', p', hp', ?_, ?_⟩
  · rw [hac]; rfl
  · rw [hh]; rfl

/-- C2: once `winnerSocketId` is set on a game, every `apply*` operation on
that room — for every caller and every argument — returns a failure and
leaves the store unchanged. -/
theorem finished_game_rejects {m : GamesMap} {rid : Nat} {g : GameState}
    {w : String} (hg : gGet m rid = some g) (hw : g.winnerSocketId = some w)
    (sid : String) (cardIndex : Int) (calculateDamage : DamageFn) :
    (∃ e, applyDrawCards m rid sid = (.error e, m)) ∧
    (∃ e, applyPlayCard m rid sid cardIndex = (.error e, m)) ∧
    (∃ e, applyAttack calculateDamage m rid sid = (.error e, m)) ∧
    (∃ e, applyEndTurn m rid sid = (.error e, m)) := by
  cases hp : pGet g.players sid with
  | none =>
    have hreq : requireGameAndPlayer m rid sid =
        .error "Vous ne participez pas a cette partie" := by
      simp [requireGameAndPlayer, hg, hp]
    exact ⟨⟨"Vous ne participez pas a cette partie", by simp [applyDrawCards, hreq]⟩,
      ⟨"Vous ne participez pas a cette partie", by simp [applyPlayCard, hreq]⟩,
      ⟨"Vous ne participez pas a cette partie", by simp [applyAttack, hreq]⟩,
      ⟨"Vous ne participez pas a cette partie", by simp [applyEndTurn, hreq]⟩⟩
  | some p =>
    cases ho : oppGet g.players sid with
    | none =>
      have hreq : requireGameAndPlayer m rid sid =
          .error "Adversaire introuvable pour cette partie" := by
        simp [requireGameAndPlayer, hg, hp, ho]
      exact ⟨⟨"Adversaire introuvable pour cette partie", by simp [applyDrawCards, hreq]⟩,
        ⟨"Adversaire introuvable pour cette partie", by simp [applyPlayCard, hreq]⟩,
        ⟨"Adversaire introuvable pour cette partie", by simp [applyAttack, hreq]⟩,
        ⟨"Adversaire introuvable pour cette partie", by simp [applyEndTurn, hreq]⟩⟩
    | some o =>
      have hreq := requireGameAndPlayer_ok hg hp ho
      have hw' : g.winnerSocketId.isSome = true := by simp [hw]
      exact ⟨⟨"La partie est deja terminee", by simp [applyDrawCards, hreq, hw']⟩,
        ⟨"La partie est deja terminee", by simp [applyPlayCard, hreq, hw']⟩,
        ⟨"La partie est deja terminee", by simp [applyAttack, hreq, hw']⟩,
        ⟨"La partie est deja terminee", by simp [applyEndTurn, hreq, hw']⟩⟩

/-- A finished two-player game (winner already set). -/
def finGame : GameState :=
  { roomId := 5
    socketRoomName := "room-5"
    players :=
      [("a",
        { socketId := "a", userId := 1, username := "alice", deck := [],
          hand := [], activeCard := none, score := 3 }),
       ("b",
        { socketId := "b", userId := 2, username := "bob", deck := [],
          hand := [], activeCard := none, score := 0 })]
    currentPlayerSocketId := "a"
    winnerSocketId := some "a" }

def finStore : GamesMap := [(5, finGame)]

theorem finished_game_rejects_witness :
    (∃ e, applyDrawCards finStore 5 "a" = (.error e, finStore)) ∧
    (∃ e, applyPlayCard finStore 5 "a" 0 = (.error e, finStore)) ∧
    (∃ e, applyAttack (fun a _ _ => a) finStore 5 "a" = (.error e, finStore)) ∧
    (∃ e, applyEndTurn finStore 5 "a" = (.error e, finStore)) :=
  @finished_game_rejects finStore 5 finGame "a" (by rfl) (by rfl) "a" 0
    (fun a _ _ => a)

/-- C10: whenever any of the four `apply*` operations returns a failure —
for any reason (missing game, non-participant caller, missing opponent,
finished game, wrong turn, bad card index, missing active card) — the
`gameStates` store is left completely unchanged. -/
theorem apply_failure_state_unchanged (m : GamesMap) (rid : Nat) (sid : String)
    (cardIndex : Int) (calculateDamage : DamageFn) :
    (∀ e, (applyDrawCards m rid sid).1 = .error e →
      (applyDrawCards m rid sid).2 = m) ∧
    (∀ e, (applyPlayCard m rid sid cardIndex).1 = .error e →
      (applyPlayCard m rid sid cardIndex).2 = m) ∧
    (∀ e, (applyAttack calculateDamage m rid sid).1 = .error e →
      (applyAttack calculateDamage m rid sid).2 = m) ∧
    (∀ e, (applyEndTurn m rid sid).1 = .error e →
      (applyEndTurn m rid sid).2 = m) := by
  cases hreq : requireGameAndPlayer m rid sid with
  | error e0 =>
    refine ⟨?_, ?_, ?_, ?_⟩ <;> intro e he <;>
      simp [applyDrawCards, applyPlayCard, applyAttack, applyEndTurn, hreq]
  | ok t =>
    obtain ⟨game, player, opp⟩ := t
    by_cases h1 : game.winnerSocketId.isSome
    · refine ⟨?_, ?_, ?_, ?_⟩ <;> intro e he <;>
        simp [applyDrawCards, applyPlayCard, applyAttack, applyEndTurn, hreq, h1]
    · by_cases h2 : game.currentPlayerSocketId ≠ sid
      · refine ⟨?_, ?_, ?_, ?_⟩ <;> intro e he <;>
          simp [applyDrawCards, applyPlayCard, applyAttack, applyEndTurn,
            hreq, h1, h2]
      · refine ⟨?_, ?_, ?_, ?_⟩
        · intro e he
          simp [applyDrawCards, hreq, h1, h2] at he
        · intro e he
          by_cases h3 : cardIndex < 0 ∨ (player.hand.length : Int) ≤ cardIndex
          · simp [applyPlayCard, hreq, h1, h2, h3]
          · simp [applyPlayCard, hreq, h1, h2, h3] at he
        · intro e he
          cases hpc : player.activeCard with
          | none => simp [applyAttack, hreq, h1, h2, hpc]
          | some pc =>
            cases hoc : opp.activeCard with
            | none => simp [applyAttack, hreq, h1, h2, hpc, hoc]
            | some oc =>
              by_cases h4 :
                  oc.currentHp - calculateDamage pc.attack pc.ptype oc.ptype ≤ 0
              · by_cases h5 : WINNING_SCORE ≤ player.score + 1
                · simp [applyAttack, hreq, h1, h2, hpc, hoc, h4, h5] at he
                · simp [applyAttack, hreq, h1, h2, hpc, hoc, h4, h5] at he
              · simp [applyAttack, hreq, h1, h2, hpc, hoc, h4] at he
        · intro e he
          simp [applyEndTurn, hreq, h1, h2] at he

theorem apply_failure_state_unchanged_witness :
    (applyDrawCards [] 0 "a").2 = [] ∧
    (applyPlayCard [] 0 "a" 0).2 = [] ∧
    (applyAttack (fun a _ _ => a) [] 0 "a").2 = [] ∧
    (applyEndTurn [] 0 "a").2 = [] := by
  obtain ⟨h1, h2, h3, h4⟩ :=
    apply_failure_state_unchanged [] 0 "a" 0 (fun a _ _ => a)
  exact ⟨h1 "La partie nexiste pas" rfl, h2 "La partie nexiste pas" rfl,
    h3 "La partie nexiste pas" rfl, h4 "La partie nexiste pas" rfl⟩

/-- C3: for every pair of 10-card decks given to `startGame` (and any
shuffle randomness), each of the two players ends with a hand of 5 cards and
a deck of 5 cards, no active card and score 0, and the host moves first. -/
theorem startGame_spec (rand1 rand2 : Nat → Nat) (o : StartGameOptions)
    (hh : o.hostDeckCards.length = DECK_SIZE)
    (hg : o.guestDeckCards.length = DECK_SIZE)
    (hne : o.hostSocketId ≠ o.guestSocketId) :
    (startGame rand1 rand2 o).currentPlayerSocketId = o.hostSocketId ∧
    (∃ hp, pGet (startGame rand1 rand2 o).players o.hostSocketId = some hp ∧
      hp.hand.length = 5 ∧ hp.deck.length = 5 ∧
      hp.activeCard = none ∧ hp.score = 0) ∧
    (∃ gp, pGet (startGame rand1 rand2 o).players o.guestSocketId = some gp ∧
      gp.hand.length = 5 ∧ gp.deck.length = 5 ∧
      gp.activeCard = none ∧ gp.score = 0) := by
  have hlh : (shuffle rand1 (deckCardsToGameCards o.hostDeckCards)).length = 10 := by
    rw [length_shuffle, length_deckCardsToGameCards, hh]; rfl
  have hlg : (shuffle rand2 (deckCardsToGameCards o.guestDeckCards)).length = 10 := by
    rw [length_shuffle, length_deckCardsToGameCards, hg]; rfl
  refine ⟨rfl,
    ⟨{ socketId := o.hostSocketId, userId := o.hostUserId,
       username := o.hostUsername,
       deck := (shuffle rand1 (deckCardsToGameCards o.hostDeckCards)).drop HAND_SIZE,
       hand := (shuffle rand1 (deckCardsToGameCards o.hostDeckCards)).take HAND_SIZE,
       activeCard := none, score := 0 }, ?_, ?_, ?_, rfl, rfl⟩,
    ⟨{ socketId := o.guestSocketId, userId := o.guestUserId,
       username := o.guestUsername,
       deck := (shuffle rand2 (deckCardsToGameCards o.guestDeckCards)).drop HAND_SIZE,
       hand := (shuffle rand2 (deckCardsToGameCards o.guestDeckCards)).take HAND_SIZE,
       activeCard := none, score := 0 }, ?_, ?_, ?_, rfl, rfl⟩⟩
  · simp [startGame, twoPlayers, hne, pGet]
  · show ((shuffle rand1 (deckCardsToGameCards o.hostDeckCards)).take HAND_SIZE).length = 5
    rw [List.length_take, hlh]; decide
  · show ((shuffle rand1 (deckCardsToGameCards o.hostDeckCards)).drop HAND_SIZE).length = 5
    rw [List.length_drop, hlh]; decide
  · simp [startGame, twoPlayers, hne, pGet]
  · show ((shuffle rand2 (deckCardsToGameCards o.guestDeckCards)).take HAND_SIZE).length = 5
    rw [List.length_take, hlg]; decide
  · show ((shuffle rand2 (deckCardsToGameCards o.guestDeckCards)).drop HAND_SIZE).length = 5
    rw [List.length_drop, hlg]; decide

theorem startGame_spec_witness :
    ((List.replicate 10 sampleCatalogCard).length = DECK_SIZE) ∧
    ("h" : String) ≠ "g" ∧
    (startGame (fun _ => 0) (fun _ => 0)
      { roomId := 1, socketRoomName := "room-1", hostSocketId := "h",
        hostUserId := 1, hostUsername := "alice",
        hostDeckCards := List.replicate 10 sampleCatalogCard,
        guestSocketId := "g", guestUserId := 2, guestUsername := "bob",
        guestDeckCards := List.replicate 10 sampleCatalogCard
        }).currentPlayerSocketId = "h" :=
  ⟨by decide, by decide,
    (startGame_spec (fun _ => 0) (fun _ => 0)
      { roomId := 1, socketRoomName := "room-1", hostSocketId := "h",
        hostUserId := 1, hostUsername := "alice",
        hostDeckCards := List.replicate 10 sampleCatalogCard,
        guestSocketId := "g", guestUserId := 2, guestUsername := "bob",
        guestDeckCards := List.replicate 10 sampleCatalogCard }
      (by decide) (by decide) (by decide)).1⟩

/-- Observation of the attacking player through the three player-record
mutations performed by a knockout in `applyAttack`. -/
theorem pGet_chain {ps : Players} {sid : String} {p : PlayerGameState}
    (f1 f2 f3 : PlayerGameState → PlayerGameState)
    (hp : pGet ps sid = some p) (hkey : p.socketId = sid)
    (h2key : (f2 p).socketId = p.socketId) :
    pGet (oppModify (pModify (oppModify ps sid f1) sid f2) sid f3) sid =
      some (f2 p) := by
  have h1 := pGet_oppModify (f := f1) hp hkey
  have h2 : pGet (pModify (oppModify ps sid f1) sid f2) sid = some (f2 p) := by
    rw [pGet_pModify, h1, Option.map_some']
  exact pGet_oppModify h2 (by rw [h2key, hkey])

/-- Observation of the defending player through the three player-record
mutations performed by a knockout in `applyAttack`. -/
theorem oppGet_chain {ps : Players} {sid : String} {p o : PlayerGameState}
    (f1 f2 f3 : PlayerGameState → PlayerGameState)
    (hp : pGet ps sid = some p) (hkey : p.socketId = sid)
    (ho : oppGet ps sid = some o)
    (hf1 : ∀ v, (f1 v).socketId = v.socketId)
    (hf2 : ∀ v, (f2 v).socketId = v.socketId)
    (hf3 : ∀ v, (f3 v).socketId = v.socketId) :
    oppGet (oppModify (pModify (oppModify ps sid f1) sid f2) sid f3) sid =
      some (f3 (f1 o)) := by
  have h1 : oppGet (oppModify ps sid f1) sid = some (f1 o) := by
    rw [oppGet_oppModify _ _ hf1, ho, Option.map_some']
  have hp1 := pGet_oppModify (f := f1) hp hkey
  have h2 : oppGet (pModify (oppModify ps sid f1) sid f2) sid = some (f1 o) := by
    rw [oppGet_pModify hp1 hkey hf2, h1]
  rw [oppGet_oppModify _ _ hf3, h2, Option.map_some']

/-- C1: when every guard of `applyAttack` passes, the computed damage is
subtracted from the opponent's active card; a knockout (`currentHp ≤ 0`)
consumes the opponent's active card (it returns to neither hand nor deck)
and adds exactly 1 to the attacker's score; if the score then reaches 3 the
winner is set to the attacker, the turn is not swapped and the result
carries the attacker's id; otherwise the turn is swapped to the opponent and
the result carries no winner. -/
theorem applyAttack_spec {m : GamesMap} {rid : Nat} {sid : String}
    {g : GameState} {p o : PlayerGameState} {pc oc : GameCard}
    (calculateDamage : DamageFn)
    (hg : gGet m rid = some g) (hp : pGet g.players sid = some p)
    (hkey : p.socketId = sid) (ho : oppGet g.players sid = some o)
    (hw : g.winnerSocketId = none) (ht : g.currentPlayerSocketId = sid)
    (hpc : p.activeCard = some pc) (hoc : o.activeCard = some oc) :
    (oc.currentHp - calculateDamage pc.attack pc.ptype oc.ptype ≤ 0 →
     WINNING_SCORE ≤ p.score + 1 →
      (applyAttack calculateDamage m rid sid).1 = .ok (some sid) ∧
      ∃ g', gGet (applyAttack calculateDamage m rid sid).2 rid = some g' ∧
        g'.winnerSocketId = some sid ∧
        g'.currentPlayerSocketId = sid ∧
        pGet g'.players sid = some { p with score := p.score + 1 } ∧
        oppGet g'.players sid = some { o with activeCard := none }) ∧
    (oc.currentHp - calculateDamage pc.attack pc.ptype oc.ptype ≤ 0 →
     p.score + 1 < WINNING_SCORE →
      (applyAttack calculateDamage m rid sid).1 = .ok none ∧
      ∃ g', gGet (applyAttack calculateDamage m rid sid).2 rid = some g' ∧
        g'.winnerSocketId = none ∧
        g'.currentPlayerSocketId = o.socketId ∧
        pGet g'.players sid = some { p with score := p.score + 1 } ∧
        oppGet g'.players sid = some { o with activeCard := none }) ∧
    (0 < oc.currentHp - calculateDamage pc.attack pc.ptype oc.ptype →
      (applyAttack calculateDamage m rid sid).1 = .ok none ∧
      ∃ g', gGet (applyAttack calculateDamage m rid sid).2 rid = some g' ∧
        g'.winnerSocketId = none ∧
        g'.currentPlayerSocketId = o.socketId ∧
        pGet g'.players sid = some p ∧
        oppGet g'.players sid =
          some { o with activeCard := some (subHp (calculateDamage pc.attack pc.ptype oc.ptype) oc) }) := by
  have hreq := requireGameAndPlayer_ok hg hp ho
  refine ⟨?_, ?_, ?_⟩
  · intro hlethal hwin
    have hres : applyAttack calculateDamage m rid sid =
        (.ok (some p.socketId),
         gModify (gModify (gModify (gModify m rid
           (fun g0 => { g0 with players := oppModify g0.players sid (hitOpponent (calculateDamage pc.attack pc.ptype oc.ptype)) }))
           rid (fun g0 => { g0 with players := pModify g0.players sid bumpScore }))
           rid (fun g0 => { g0 with players := oppModify g0.players sid clearActive }))
           rid (fun g0 => { g0 with winnerSocketId := some p.socketId })) := by
      simp [applyAttack, hreq, hw, ht, hpc, hoc, hlethal, hwin]
    rw [hres]
    refine ⟨by simp [hkey], ?_⟩
    rw [gGet_gModify, gGet_gModify, gGet_gModify, gGet_gModify, hg]
    simp only [Option.map_some']
    refine ⟨_, rfl, ?_, ?_, ?_, ?_⟩
    · simp [hkey]
    · simp [ht]
    · exact pGet_chain _ _ _ hp hkey rfl
    · exact oppGet_chain _ _ _ hp hkey ho
        (fun v => rfl) (fun v => rfl) (fun v => rfl)
  · intro hlethal hlow
    have hnot : ¬ WINNING_SCORE ≤ p.score + 1 := by omega
    have hres : applyAttack calculateDamage m rid sid =
        (.ok none,
         gModify (gModify (gModify (gModify m rid
           (fun g0 => { g0 with players := oppModify g0.players sid (hitOpponent (calculateDamage pc.attack pc.ptype oc.ptype)) }))
           rid (fun g0 => { g0 with players := pModify g0.players sid bumpScore }))
           rid (fun g0 => { g0 with players := oppModify g0.players sid clearActive }))
           rid (fun g0 => { g0 with currentPlayerSocketId := o.socketId })) := by
      simp [applyAttack, hreq, hw, ht, hpc, hoc, hlethal, hnot]
    rw [hres]
    refine ⟨rfl, ?_⟩
    rw [gGet_gModify, gGet_gModify, gGet_gModify, gGet_gModify, hg]
    simp only [Option.map_some']
    refine ⟨_, rfl, ?_, ?_, ?_, ?_⟩
    · simp [hw]
    · simp
    · exact pGet_chain _ _ _ hp hkey rfl
    · exact oppGet_chain _ _ _ hp hkey ho
        (fun v => rfl) (fun v => rfl) (fun v => rfl)
  · intro hsafe
    have hnot : ¬ oc.currentHp - calculateDamage pc.attack pc.ptype oc.ptype ≤ 0 := by
      omega
    have hres : applyAttack calculateDamage m rid sid =
        (.ok none,
         gModify (gModify m rid
           (fun g0 => { g0 with players := oppModify g0.players sid (hitOpponent (calculateDamage pc.attack pc.ptype oc.ptype)) }))
           rid (fun g0 => { g0 with currentPlayerSocketId := o.socketId })) := by
      simp [applyAttack, hreq, hw, ht, hpc, hoc, hnot]
    rw [hres]
    refine ⟨rfl, ?_⟩
    rw [gGet_gModify, gGet_gModify, hg]
    simp only [Option.map_some']
    refine ⟨_, rfl, ?_, ?_, ?_, ?_⟩
    · simp [hw]
    · simp
    · exact pGet_oppModify hp hkey
    · show oppGet (oppModify g.players sid (hitOpponent (calculateDamage pc.attack pc.ptype oc.ptype))) sid =
        some { o with activeCard := some (subHp (calculateDamage pc.attack pc.ptype oc.ptype) oc) }
      rw [oppGet_oppModify (f := hitOpponent (calculateDamage pc.attack pc.ptype oc.ptype)) g.players sid (fun v => rfl),
        ho, Option.map_some']
      simp [hitOpponent, hoc]

/-- Attacker card with overwhelming attack power. -/
def atkCard : GameCard :=
  { id := 151, name := "Mew", hp := 10, attack := 100, ptype := 0,
    pokedexNumber := 151, imgUrl := none, currentHp := 10 }

/-- Defender card with 10 remaining HP. -/
def defCard : GameCard :=
  { id := 52, name := "Miaouss", hp := 10, attack := 5, ptype := 1,
    pokedexNumber := 52, imgUrl := none, currentHp := 10 }

def atkPlayerA : PlayerGameState :=
  { socketId := "a", userId := 1, username := "alice", deck := [], hand := [],
    activeCard := some atkCard, score := 2 }

def atkPlayerB : PlayerGameState :=
  { socketId := "b", userId := 2, username := "bob", deck := [], hand := [],
    activeCard := some defCard, score := 0 }

/-- Attack scenario: attacker at score 2 lands a lethal hit and wins. -/
def atkGame : GameState :=
  { roomId := 6
    socketRoomName := "room-6"
    players := [("a", atkPlayerA), ("b", atkPlayerB)]
    currentPlayerSocketId := "a"
    winnerSocketId := none }

def atkStore : GamesMap := [(6, atkGame)]

theorem applyAttack_spec_witness :
    (applyAttack (fun a _ _ => a) atkStore 6 "a").1 = .ok (some "a") ∧
    ∃ g', gGet (applyAttack (fun a _ _ => a) atkStore 6 "a").2 6 = some g' ∧
      g'.winnerSocketId = some "a" ∧
      g'.currentPlayerSocketId = "a" ∧
      pGet g'.players "a" = some { atkPlayerA with score := atkPlayerA.score + 1 } ∧
      oppGet g'.players "a" = some { atkPlayerB with activeCard := none } :=
  (@applyAttack_spec atkStore 6 "a" atkGame atkPlayerA atkPlayerB atkCard
    defCard (fun a _ _ => a) (by decide) (by decide) rfl (by decide) rfl rfl
    rfl rfl).1 (by decide) (by decide)

/-- Every player of every stored game holds at most `HAND_SIZE` cards. -/
def handBound (m : GamesMap) : Prop :=
  ∀ e ∈ m, ∀ q ∈ e.2.players, q.2.hand.length ≤ HAND_SIZE

theorem forall_pModify_pointwise {ps : Players} {i : String}
    {f : PlayerGameState → PlayerGameState} {P : PlayerGameState → Prop}
    (h : ∀ q ∈ ps, P q.2) (hf : ∀ v, P v → P (f v)) :
    ∀ q ∈ pModify ps i f, P q.2 := by
  induction ps with
  | nil => intro q hq; simp [pModify] at hq
  | cons e rest ih =>
    obtain ⟨k, v⟩ := e
    have hv : P v := h (k, v) (List.mem_cons_self _ _)
    have hrest : ∀ q ∈ rest, P q.2 := fun q hq => h q (List.mem_cons_of_mem _ hq)
    intro q hq
    simp only [pModify] at hq
    by_cases hk : k = i
    · rw [if_pos hk] at hq
      rcases List.mem_cons.mp hq with hq | hq
      · subst hq; exact hf v hv
      · exact hrest q hq
    · rw [if_neg hk] at hq
      rcases List.mem_cons.mp hq with hq | hq
      · subst hq; exact hv
      · exact ih hrest q hq

theorem forall_oppModify_pointwise {ps : Players} {i : String}
    {f : PlayerGameState → PlayerGameState} {P : PlayerGameState → Prop}
    (h : ∀ q ∈ ps, P q.2) (hf : ∀ v, P v → P (f v)) :
    ∀ q ∈ oppModify ps i f, P q.2 := by
  induction ps with
  | nil => intro q hq; simp [oppModify] at hq
  | cons e rest ih =>
    obtain ⟨k, v⟩ := e
    have hv : P v := h (k, v) (List.mem_cons_self _ _)
    have hrest : ∀ q ∈ rest, P q.2 := fun q hq => h q (List.mem_cons_of_mem _ hq)
    intro q hq
    simp only [oppModify] at hq
    by_cases hk : v.socketId ≠ i
    · rw [if_pos hk] at hq
      rcases List.mem_cons.mp hq with hq | hq
      · subst hq; exact hf v hv
      · exact hrest q hq
    · rw [if_neg hk] at hq
      rcases List.mem_cons.mp hq with hq | hq
      · subst hq; exact hv
      · exact ih hrest q hq

theorem handBound_gModify_pointwise {m : GamesMap} {r : Nat}
    {f : GameState → GameState} (h : handBound m)
    (hf : ∀ g0, (∀ q ∈ g0.players, q.2.hand.length ≤ HAND_SIZE) →
      ∀ q ∈ (f g0).players, q.2.hand.length ≤ HAND_SIZE) :
    handBound (gModify m r f) := by
  intro e he q hq
  cases hgr : gGet m r with
  | none =>
    rw [gModify_of_none hgr] at he
    exact h e he q hq
  | some g0 =>
    rcases mem_gModify hgr he with hem | heq
    · exact h e hem q hq
    · subst heq
      exact hf g0 (fun q2 hq2 => h (r, g0) (gGet_mem hgr) q2 hq2) q hq

theorem length_eraseIdx_add_one {α : Type} (l : List α) (i : Nat)
    (h : i < l.length) : (l.eraseIdx i).length + 1 = l.length := by
  induction l generalizing i with
  | nil => simp at h
  | cons a rest ih =>
    cases i with
    | zero => simp [List.eraseIdx]
    | succ j =>
      simp only [List.eraseIdx, List.length_cons]
      rw [ih j (by simpa using h)]

theorem handBound_applyDrawCards (m : GamesMap) (rid : Nat) (sid : String)
    (h : handBound m) : handBound (applyDrawCards m rid sid).2 := by
  cases hreq : requireGameAndPlayer m rid sid with
  | error e0 => simpa [applyDrawCards, hreq] using h
  | ok t =>
    obtain ⟨game, player, opp⟩ := t
    obtain ⟨hg, hpl, hop⟩ := requireGameAndPlayer_ok_inv hreq
    by_cases h1 : game.winnerSocketId.isSome
    · simpa [applyDrawCards, hreq, h1] using h
    by_cases h2 : game.currentPlayerSocketId ≠ sid
    · simpa [applyDrawCards, hreq, h1, h2] using h
    have hstore : (applyDrawCards m rid sid).2 =
        gModify m rid (fun g0 =>
          { g0 with players := pModify g0.players sid (fun p0 =>
              let hd := drawLoop p0.hand p0.deck
              { p0 with hand := hd.1, deck := hd.2 }) }) := by
      simp [applyDrawCards, hreq, h1, h2]
    rw [hstore]
    refine handBound_gModify_pointwise h (fun g0 hg0 => fun q hq => ?_)
    refine forall_pModify_pointwise (i := sid) (P := fun v => v.hand.length ≤ HAND_SIZE) hg0 (fun v hv => ?_) q hq
    show (drawLoop v.hand v.deck).1.length ≤ HAND_SIZE
    rw [drawLoop_eq]
    simp only [List.length_append, List.length_take]
    omega

theorem handBound_applyPlayCard (m : GamesMap) (rid : Nat) (sid : String)
    (cardIndex : Int) (h : handBound m) :
    handBound (applyPlayCard m rid sid cardIndex).2 := by
  cases hreq : requireGameAndPlayer m rid sid with
  | error e0 => simpa [applyPlayCard, hreq] using h
  | ok t =>
    obtain ⟨game, player, opp⟩ := t
    obtain ⟨hg, hpl, hop⟩ := requireGameAndPlayer_ok_inv hreq
    by_cases h1 : game.winnerSocketId.isSome
    · simpa [applyPlayCard, hreq, h1] using h
    by_cases h2 : game.currentPlayerSocketId ≠ sid
    · simpa [applyPlayCard, hreq, h1, h2] using h
    by_cases h3 : cardIndex < 0 ∨ (player.hand.length : Int) ≤ cardIndex
    · simpa [applyPlayCard, hreq, h1, h2, h3] using h
    have hstore : (applyPlayCard m rid sid cardIndex).2 =
        gModify m rid (fun g0 =>
          { g0 with players := pModify g0.players sid (fun p0 =>
              let idx := cardIndex.toNat
              let card := p0.hand.get? idx
              { p0 with
                hand := p0.hand.eraseIdx idx ++
                  (match p0.activeCard with
                   | some a => [a]
                   | none => [])
                activeCard := card }) }) := by
      simp [applyPlayCard, hreq, h1, h2, h3]
    rw [hstore]
    intro e he q hq
    cases hgr : gGet m rid with
    | none =>
      rw [gModify_of_none hgr] at he
      exact h e he q hq
    | some g0 =>
      rcases mem_gModify hgr he with hem | heq
      · exact h e hem q hq
      subst heq
      have hsame : g0 = game := by
        rw [hgr] at hg
        exact Option.some.inj hg
      subst hsame
      rcases mem_pModify hpl hq with hqm | hqe
      · exact h (rid, g0) (gGet_mem hgr) q hqm
      subst hqe
      have hbound : player.hand.length ≤ HAND_SIZE :=
        h (rid, g0) (gGet_mem hgr) (sid, player) (pGet_mem hpl)
      have hlt : cardIndex.toNat < player.hand.length := by omega
      have herase := length_eraseIdx_add_one player.hand cardIndex.toNat hlt
      cases hac : player.activeCard <;>
        simp only [hac, List.length_append, List.length_cons, List.length_nil] <;>
        omega

theorem handBound_applyEndTurn (m : GamesMap) (rid : Nat) (sid : String)
    (h : handBound m) : handBound (applyEndTurn m rid sid).2 := by
  cases hreq : requireGameAndPlayer m rid sid with
  | error e0 => simpa [applyEndTurn, hreq] using h
  | ok t =>
    obtain ⟨game, player, opp⟩ := t
    by_cases h1 : game.winnerSocketId.isSome
    · simpa [applyEndTurn, hreq, h1] using h
    by_cases h2 : game.currentPlayerSocketId ≠ sid
    · simpa [applyEndTurn, hreq, h1, h2] using h
    have hstore : (applyEndTurn m rid sid).2 =
        gModify m rid (fun g0 => { g0 with currentPlayerSocketId := opp.socketId }) := by
      simp [applyEndTurn, hreq, h1, h2]
    rw [hstore]
    exact handBound_gModify_pointwise h (fun g0 hg0 => hg0)

theorem handBound_applyAttack (calculateDamage : DamageFn) (m : GamesMap)
    (rid : Nat) (sid : String) (h : handBound m) :
    handBound (applyAttack calculateDamage m rid sid).2 := by
  cases hreq : requireGameAndPlayer m rid sid with
  | error e0 => simpa [applyAttack, hreq] using h
  | ok t =>
    obtain ⟨game, player, opp⟩ := t
    by_cases h1 : game.winnerSocketId.isSome
    · simpa [applyAttack, hreq, h1] using h
    by_cases h2 : game.currentPlayerSocketId ≠ sid
    · simpa [applyAttack, hreq, h1, h2] using h
    cases hpc : player.activeCard with
    | none => simpa [applyAttack, hreq, h1, h2, hpc] using h
    | some pc =>
      cases hoc : opp.activeCard with
      | none => simpa [applyAttack, hreq, h1, h2, hpc, hoc] using h
      | some oc =>
        have hm1 : handBound (gModify m rid (fun g0 =>
            { g0 with players := oppModify g0.players sid (hitOpponent (calculateDamage pc.attack pc.ptype oc.ptype)) })) :=
          handBound_gModify_pointwise h (fun g0 hg0 => fun q hq =>
            forall_oppModify_pointwise (i := sid) (P := fun v => v.hand.length ≤ HAND_SIZE)
              (f := hitOpponent (calculateDamage pc.attack pc.ptype oc.ptype))
              hg0 (fun v hv => hv) q hq)
        by_cases h4 : oc.currentHp - calculateDamage pc.attack pc.ptype oc.ptype ≤ 0
        · have hm2 := handBound_gModify_pointwise (r := rid)
            (f := fun g0 => { g0 with players := pModify g0.players sid bumpScore })
            hm1 (fun g0 hg0 => fun q hq =>
              forall_pModify_pointwise (i := sid) (P := fun v => v.hand.length ≤ HAND_SIZE)
                (f := bumpScore) hg0 (fun v hv => hv) q hq)
          have hm3 := handBound_gModify_pointwise (r := rid)
            (f := fun g0 => { g0 with players := oppModify g0.players sid clearActive })
            hm2 (fun g0 hg0 => fun q hq =>
              forall_oppModify_pointwise (i := sid) (P := fun v => v.hand.length ≤ HAND_SIZE)
                (f := clearActive) hg0 (fun v hv => hv) q hq)
          by_cases h5 : WINNING_SCORE ≤ player.score + 1
          · have hm4 := handBound_gModify_pointwise (r := rid)
              (f := fun g0 => { g0 with winnerSocketId := some player.socketId })
              hm3 (fun g0 hg0 => hg0)
            simpa [applyAttack, hreq, h1, h2, hpc, hoc, h4, h5] using hm4
          · have hm4 := handBound_gModify_pointwise (r := rid)
              (f := fun g0 => { g0 with currentPlayerSocketId := opp.socketId })
              hm3 (fun g0 hg0 => hg0)
            simpa [applyAttack, hreq, h1, h2, hpc, hoc, h4, h5] using hm4
        · have hm2 := handBound_gModify_pointwise (r := rid)
            (f := fun g0 => { g0 with currentPlayerSocketId := opp.socketId })
            hm1 (fun g0 hg0 => hg0)
          simpa [applyAttack, hreq, h1, h2, hpc, hoc, h4] using hm2

theorem handBound_startGameStore (rand1 rand2 : Nat → Nat)
    (o : StartGameOptions) (m : GamesMap) (h : handBound m) :
    handBound (startGameStore rand1 rand2 o m) := by
  intro e he q hq
  rcases mem_gSet he with hem | heq
  · exact h e hem q hq
  · subst heq
    have htake : ∀ (l : List GameCard), (l.take HAND_SIZE).length ≤ HAND_SIZE := by
      intro l
      simp [List.length_take]
    simp only [startGame, twoPlayers] at hq
    by_cases hsid : o.hostSocketId = o.guestSocketId
    · simp only [hsid, if_true] at hq
      rcases List.mem_cons.mp hq with hq | hq
      · subst hq; exact htake _
      · simp at hq
    · simp only [hsid, if_false] at hq
      rcases List.mem_cons.mp hq with hq | hq
      · subst hq; exact htake _
      rcases List.mem_cons.mp hq with hq | hq
      · subst hq; exact htake _
      · simp at hq

/-- C6: in every reachable game store — any store produced by `startGame` on
10-card decks and any finite sequence of the four `apply*` operations — each
player's hand holds at most 5 cards. -/
theorem reachable_hand_le_five {m : GamesMap} (h : Reachable m) :
    ∀ e ∈ m, ∀ q ∈ e.2.players, q.2.hand.length ≤ 5 := by
  have hb : handBound m := by
    induction h with
    | empty => intro e he; simp at he
    | start rand1 rand2 o hh hg hr ih => exact handBound_startGameStore _ _ _ _ ih
    | draw rid sid hr ih => exact handBound_applyDrawCards _ _ _ ih
    | play rid sid ci hr ih => exact handBound_applyPlayCard _ _ _ _ ih
    | attack cd rid sid hr ih => exact handBound_applyAttack _ _ _ _ ih
    | endTurn rid sid hr ih => exact handBound_applyEndTurn _ _ _ ih
  exact hb

/-- The start options used by the reachability witness. -/
def wOpts : StartGameOptions :=
  { roomId := 1, socketRoomName := "room-1", hostSocketId := "h",
    hostUserId := 1, hostUsername := "alice",
    hostDeckCards := List.replicate 10 sampleCatalogCard,
    guestSocketId := "g", guestUserId := 2, guestUsername := "bob",
    guestDeckCards := List.replicate 10 sampleCatalogCard }

theorem reachable_hand_le_five_witness :
    ((startGameStore (fun _ => 0) (fun _ => 0) wOpts []).all (fun e =>
      e.2.players.all (fun q => q.2.hand.length ≤ 5))) = true := by
  have h := reachable_hand_le_five
    (Reachable.start (fun _ => 0) (fun _ => 0) wOpts (by decide) (by decide)
      Reachable.empty)
  rw [List.all_eq_true]
  intro e he
  rw [List.all_eq_true]
  intro q hq
  exact decide_eq_true (h e he q hq)

end Pokedex
